import Mathlib

/-!
Verification of the battery charge/discharge simulator core (`ACS.py`):
the chemistry catalog `battery_types` and the pure time-series generator
`simulate_battery`.  Real arithmetic of the source is embedded as exact
rational arithmetic (`ℚ`); the Python `mode` string is kept as a `String`
compared against the literal `"Charging"`, exactly as in the source.
-/

/-- One entry of the `battery_types` dict: per-cell nominal voltage (V),
nominal capacity (Ah) and round-trip efficiency fraction. -/
structure ChemistryProfile where
  voltage : ℚ
  capacity : ℚ
  efficiency : ℚ
deriving DecidableEq, Repr

/-- The `battery_types` dict of `ACS.py`, as an association list in the
source's insertion order. -/
def battery_types : List (String × ChemistryProfile) :=
  [("Lithium-Ion", ⟨37/10, 5/2, 95/100⟩),
   ("Lead-Acid",   ⟨2,     5,    85/100⟩),
   ("NiMH",        ⟨12/10, 2,    75/100⟩),
   ("Solid-State", ⟨38/10, 3,    98/100⟩),
   ("NMC",         ⟨37/10, 28/10, 95/100⟩),
   ("LFP",         ⟨32/10, 3,    98/100⟩),
   ("LCO",         ⟨37/10, 5/2,  92/100⟩),
   ("LMO",         ⟨37/10, 22/10, 9/10⟩)]

/-- Python dict lookup `battery_types[battery_type]` (line 89): `some`
the stored profile when the key is registered, `none` (a `KeyError` /
`UnknownChemistry` failure) otherwise. -/
def lookup (name : String) : Option ChemistryProfile :=
  (battery_types.find? (fun p => p.1 = name)).map Prod.snd

/-- The body of the per-second update of `soc_val` (lines 31–34):
`min(100, soc_val + 100/duration)` when charging, else
`max(0, soc_val - 100/duration)`. -/
def socStep (mode : String) (duration : ℤ) (soc_val : ℚ) : ℚ :=
  if mode = "Charging" then min 100 (soc_val + 100 / (duration : ℚ))
  else max 0 (soc_val - 100 / (duration : ℚ))

/-- `soc_val` after `k` iterations of the loop body starting from `s`. -/
def socIter (mode : String) (duration : ℤ) (s : ℚ) : ℕ → ℚ
  | 0 => s
  | k + 1 => socStep mode duration (socIter mode duration s k)

/-- The `for t in time` loop of `simulate_battery` (lines 30–41): walks the
time axis carrying the running `soc_val` and returns the three appended
columns `(soc, current, voltage)` in order.  The loop body never reads `t`,
exactly as in the source. -/
def simulate_loop (mode : String) (duration : ℤ)
    (total_capacity total_voltage : ℚ) :
    List ℕ → ℚ → List ℚ × List ℚ × List ℚ
  | [], _ => ([], [], [])
  | _ :: ts, soc_val =>
    let soc_new := socStep mode duration soc_val
    let current_val :=
      (total_capacity / (duration : ℚ)) * (if mode = "Charging" then 1 else -1)
    let voltage_val := total_voltage * (soc_new / 100)
    let rest := simulate_loop mode duration total_capacity total_voltage ts soc_new
    (soc_new :: rest.1, current_val :: rest.2.1, voltage_val :: rest.2.2)

/-- The returned triple of `simulate_battery`: the four DataFrame columns
plus the two pack-level scalars. -/
structure SimulationResult where
  time : List ℕ
  soc : List ℚ
  current : List ℚ
  voltage : List ℚ
  total_voltage : ℚ
  total_capacity : ℚ
deriving DecidableEq, Repr

/-- `simulate_battery(b_config, series_cells, parallel_cells, mode, duration)`
(lines 22–48).  `np.arange(0, duration, 1)` is `[0, …, duration-1]` for
positive `duration` and empty otherwise, which is `List.range duration.toNat`. -/
def simulate_battery (b_config : ChemistryProfile)
    (series_cells parallel_cells : ℤ) (mode : String) (duration : ℤ) :
    SimulationResult :=
  let total_voltage := b_config.voltage * (series_cells : ℚ)
  let total_capacity := b_config.capacity * (parallel_cells : ℚ)
  let time := List.range duration.toNat
  let soc_init : ℚ := if mode = "Charging" then 0 else 100
  let cols := simulate_loop mode duration total_capacity total_voltage time soc_init
  { time := time, soc := cols.1, current := cols.2.1, voltage := cols.2.2,
    total_voltage := total_voltage, total_capacity := total_capacity }

/-- The Lithium-Ion profile, for concrete scenarios. -/
def liIon : ChemistryProfile := ⟨37/10, 5/2, 95/100⟩

/-! ### Structural lemmas about the simulation loop -/

theorem simulate_loop_lengths (m : String) (d : ℤ) (tc tv : ℚ) :
    ∀ (ts : List ℕ) (s : ℚ),
      (simulate_loop m d tc tv ts s).1.length = ts.length ∧
      (simulate_loop m d tc tv ts s).2.1.length = ts.length ∧
      (simulate_loop m d tc tv ts s).2.2.length = ts.length := by
  intro ts
  induction ts with
  | nil => intro s; simp [simulate_loop]
  | cons t ts ih =>
    intro s
    simp [simulate_loop, ih (socStep m d s)]

theorem socIter_step (m : String) (d : ℤ) (s : ℚ) :
    ∀ k, socIter m d (socStep m d s) k = socIter m d s (k + 1) := by
  intro k
  induction k with
  | zero => rfl
  | succ k ih => simp [socIter, ih]

theorem simulate_loop_soc_get (m : String) (d : ℤ) (tc tv : ℚ) :
    ∀ (ts : List ℕ) (s : ℚ) (i : ℕ), i < ts.length →
      (simulate_loop m d tc tv ts s).1.get? i = some (socIter m d s (i + 1)) := by
  intro ts
  induction ts with
  | nil => intro s i h; simp at h
  | cons t ts ih =>
    intro s i h
    cases i with
    | zero => simp [simulate_loop, socIter]
    | succ j =>
      have hj : j < ts.length := by simpa using h
      have hcons : (simulate_loop m d tc tv (t :: ts) s).1 =
          socStep m d s :: (simulate_loop m d tc tv ts (socStep m d s)).1 := rfl
      rw [hcons, List.get?_cons_succ, ih (socStep m d s) j hj, socIter_step]

theorem simulate_loop_current_get (m : String) (d : ℤ) (tc tv : ℚ) :
    ∀ (ts : List ℕ) (s : ℚ) (i : ℕ), i < ts.length →
      (simulate_loop m d tc tv ts s).2.1.get? i =
        some ((tc / (d : ℚ)) * (if m = "Charging" then 1 else -1)) := by
  intro ts
  induction ts with
  | nil => intro s i h; simp at h
  | cons t ts ih =>
    intro s i h
    cases i with
    | zero => simp [simulate_loop]
    | succ j =>
      have hj : j < ts.length := by simpa using h
      have hcons : (simulate_loop m d tc tv (t :: ts) s).2.1 =
          (tc / (d : ℚ)) * (if m = "Charging" then 1 else -1) ::
            (simulate_loop m d tc tv ts (socStep m d s)).2.1 := rfl
      rw [hcons, List.get?_cons_succ, ih (socStep m d s) j hj]

theorem simulate_loop_voltage_get (m : String) (d : ℤ) (tc tv : ℚ) :
    ∀ (ts : List ℕ) (s : ℚ) (i : ℕ), i < ts.length →
      (simulate_loop m d tc tv ts s).2.2.get? i =
        some (tv * (socIter m d s (i + 1) / 100)) := by
  intro ts
  induction ts with
  | nil => intro s i h; simp at h
  | cons t ts ih =>
    intro s i h
    cases i with
    | zero => simp [simulate_loop, socIter]
    | succ j =>
      have hj : j < ts.length := by simpa using h
      have hcons : (simulate_loop m d tc tv (t :: ts) s).2.2 =
          tv * (socStep m d s / 100) ::
            (simulate_loop m d tc tv ts (socStep m d s)).2.2 := rfl
      rw [hcons, List.get?_cons_succ, ih (socStep m d s) j hj, socIter_step]

/-! ### Numeric facts about the SOC update -/

theorem ramp_nonneg (d : ℤ) (hd : 1 ≤ d) : (0 : ℚ) ≤ 100 / (d : ℚ) := by
  have hd' : (0 : ℚ) < (d : ℚ) := by exact_mod_cast Int.lt_of_lt_of_le Int.zero_lt_one hd
  positivity

theorem socStep_bounds (m : String) (d : ℤ) (hd : 1 ≤ d) (s : ℚ)
    (h0 : 0 ≤ s) (h1 : s ≤ 100) :
    0 ≤ socStep m d s ∧ socStep m d s ≤ 100 := by
  have hq := ramp_nonneg d hd
  unfold socStep
  split
  · exact ⟨le_min (by norm_num) (add_nonneg h0 hq), min_le_left _ _⟩
  · refine ⟨le_max_left _ _, max_le (by norm_num) ?_⟩
    calc s - 100 / (d : ℚ) ≤ s := sub_le_self _ hq
      _ ≤ 100 := h1

theorem socIter_bounds (m : String) (d : ℤ) (hd : 1 ≤ d) (s : ℚ)
    (h0 : 0 ≤ s) (h1 : s ≤ 100) :
    ∀ k, 0 ≤ socIter m d s k ∧ socIter m d s k ≤ 100 := by
  intro k
  induction k with
  | zero => exact ⟨h0, h1⟩
  | succ k ih => exact socStep_bounds m d hd _ ih.1 ih.2

theorem socStep_charging_ge (d : ℤ) (hd : 1 ≤ d) (s : ℚ) (h1 : s ≤ 100) :
    s ≤ socStep "Charging" d s := by
  have hq := ramp_nonneg d hd
  unfold socStep
  simp only [if_pos rfl]
  exact le_min h1 (le_add_of_nonneg_right hq)

theorem socStep_discharging_le (m : String) (hm : m ≠ "Charging")
    (d : ℤ) (hd : 1 ≤ d) (s : ℚ) (h0 : 0 ≤ s) :
    socStep m d s ≤ s := by
  have hq := ramp_nonneg d hd
  unfold socStep
  simp only [if_neg hm]
  exact max_le h0 (sub_le_self _ hq)

/-! ### Field equations of `simulate_battery` -/

theorem simulate_battery_soc_eq (b : ChemistryProfile) (sc pc : ℤ)
    (m : String) (d : ℤ) :
    (simulate_battery b sc pc m d).soc =
      (simulate_loop m d (b.capacity * (pc : ℚ)) (b.voltage * (sc : ℚ))
        (List.range d.toNat) (if m = "Charging" then 0 else 100)).1 := rfl

theorem simulate_battery_current_eq (b : ChemistryProfile) (sc pc : ℤ)
    (m : String) (d : ℤ) :
    (simulate_battery b sc pc m d).current =
      (simulate_loop m d (b.capacity * (pc : ℚ)) (b.voltage * (sc : ℚ))
        (List.range d.toNat) (if m = "Charging" then 0 else 100)).2.1 := rfl

theorem simulate_battery_voltage_eq (b : ChemistryProfile) (sc pc : ℤ)
    (m : String) (d : ℤ) :
    (simulate_battery b sc pc m d).voltage =
      (simulate_loop m d (b.capacity * (pc : ℚ)) (b.voltage * (sc : ℚ))
        (List.range d.toNat) (if m = "Charging" then 0 else 100)).2.2 := rfl

theorem mode_strings_differ : ¬ ("Discharging" = "Charging") := by decide

theorem soc_init_bounds (m : String) :
    (0 : ℚ) ≤ (if m = "Charging" then (0 : ℚ) else 100) ∧
      (if m = "Charging" then (0 : ℚ) else 100) ≤ 100 := by
  split <;> norm_num

/-! ### Claim theorems -/

/-- C1: for every valid request (duration ≥ 1, series ≥ 1, parallel ≥ 1) the
result's columns all have length exactly `duration`, and the i-th time value
is `i` for every `0 ≤ i < duration`. -/
theorem sample_count_and_time_axis (b : ChemistryProfile) (sc pc : ℤ)
    (m : String) (d : ℤ) (hd : 1 ≤ d) (hsc : 1 ≤ sc) (hpc : 1 ≤ pc) :
    ((simulate_battery b sc pc m d).time.length : ℤ) = d ∧
    (simulate_battery b sc pc m d).soc.length =
      (simulate_battery b sc pc m d).time.length ∧
    (simulate_battery b sc pc m d).current.length =
      (simulate_battery b sc pc m d).time.length ∧
    (simulate_battery b sc pc m d).voltage.length =
      (simulate_battery b sc pc m d).time.length ∧
    ∀ i : ℕ, i < d.toNat →
      (simulate_battery b sc pc m d).time.get? i = some i := by
  have hlen := simulate_loop_lengths m d (b.capacity * (pc : ℚ))
    (b.voltage * (sc : ℚ)) (List.range d.toNat)
    (if m = "Charging" then 0 else 100)
  refine ⟨?_, hlen.1, hlen.2.1, hlen.2.2, ?_⟩
  · show ((List.range d.toNat).length : ℤ) = d
    rw [List.length_range]
    exact Int.toNat_of_nonneg (le_trans (by norm_num) hd)
  · intro i hi
    show (List.range d.toNat).get? i = some i
    exact List.get?_range hi

/-- C1 witness at the concrete request Lithium-Ion, 3 series, 2 parallel,
Charging, duration 2. -/
theorem sample_count_and_time_axis_witness :
    (simulate_battery liIon 3 2 "Charging" 2).time.get? 1 = some 1 :=
  (sample_count_and_time_axis liIon 3 2 "Charging" 2 (by norm_num)
    (by norm_num) (by norm_num)).2.2.2.2 1 (by decide)

/-- C2: for every valid request, every recorded SOC value lies in [0, 100]. -/
theorem soc_within_bounds (b : ChemistryProfile) (sc pc : ℤ)
    (m : String) (d : ℤ) (hd : 1 ≤ d) (hsc : 1 ≤ sc) (hpc : 1 ≤ pc) :
    ∀ (i : ℕ) (x : ℚ),
      (simulate_battery b sc pc m d).soc.get? i = some x →
      0 ≤ x ∧ x ≤ 100 := by
  intro i x hx
  rw [simulate_battery_soc_eq] at hx
  have hi : i < (List.range d.toNat).length := by
    by_contra hge
    rw [List.get?_eq_none.mpr] at hx
    · exact Option.noConfusion hx
    · have := (simulate_loop_lengths m d (b.capacity * (pc : ℚ))
        (b.voltage * (sc : ℚ)) (List.range d.toNat)
        (if m = "Charging" then 0 else 100)).1
      omega
  rw [simulate_loop_soc_get m d (b.capacity * (pc : ℚ)) (b.voltage * (sc : ℚ))
    (List.range d.toNat) (if m = "Charging" then 0 else 100) i hi] at hx
  obtain rfl := (Option.some.injEq _ _).mp hx
  exact socIter_bounds m d hd _ (soc_init_bounds m).1 (soc_init_bounds m).2 (i + 1)

/-- C2 witness: the first Discharging sample of a duration-4 run has SOC 75,
which lies in [0, 100]. -/
theorem soc_within_bounds_witness : (0 : ℚ) ≤ 75 ∧ (75 : ℚ) ≤ 100 :=
  soc_within_bounds liIon 3 2 "Discharging" 4 (by norm_num) (by norm_num)
    (by norm_num) 0 75 (by
      rw [simulate_battery_soc_eq, simulate_loop_soc_get]
      · norm_num [socIter, socStep, max_def, if_neg mode_strings_differ]
      · norm_num)

theorem soc_get_eq (b : ChemistryProfile) (sc pc : ℤ) (m : String) (d : ℤ)
    (i : ℕ) (x : ℚ)
    (hx : (simulate_battery b sc pc m d).soc.get? i = some x) :
    i < d.toNat ∧
      x = socIter m d (if m = "Charging" then 0 else 100) (i + 1) := by
  rw [simulate_battery_soc_eq] at hx
  have hi : i < (List.range d.toNat).length := by
    by_contra hge
    rw [List.get?_eq_none.mpr] at hx
    · exact Option.noConfusion hx
    · have := (simulate_loop_lengths m d (b.capacity * (pc : ℚ))
        (b.voltage * (sc : ℚ)) (List.range d.toNat)
        (if m = "Charging" then 0 else 100)).1
      omega
  rw [simulate_loop_soc_get m d (b.capacity * (pc : ℚ)) (b.voltage * (sc : ℚ))
    (List.range d.toNat) (if m = "Charging" then 0 else 100) i hi] at hx
  exact ⟨by simpa using hi, ((Option.some.injEq _ _).mp hx).symm⟩

/-- C3: the SOC series is monotone: non-decreasing for consecutive samples
under Charging and non-increasing under Discharging. -/
theorem soc_monotone (b : ChemistryProfile) (sc pc : ℤ) (m : String) (d : ℤ)
    (hd : 1 ≤ d) (hsc : 1 ≤ sc) (hpc : 1 ≤ pc) :
    ∀ (i : ℕ) (x y : ℚ),
      (simulate_battery b sc pc m d).soc.get? i = some x →
      (simulate_battery b sc pc m d).soc.get? (i + 1) = some y →
      (m = "Charging" → x ≤ y) ∧ (m = "Discharging" → y ≤ x) := by
  intro i x y hx hy
  obtain ⟨hi, rfl⟩ := soc_get_eq b sc pc m d i x hx
  obtain ⟨hi1, rfl⟩ := soc_get_eq b sc pc m d (i + 1) y hy
  have hb := socIter_bounds m d hd (if m = "Charging" then 0 else 100)
    (soc_init_bounds m).1 (soc_init_bounds m).2 (i + 1)
  constructor
  · intro hm
    subst hm
    exact socStep_charging_ge d hd _ hb.2
  · intro hm
    subst hm
    exact socStep_discharging_le _ mode_strings_differ d hd _ hb.1

/-- C3 witness: in the Discharging duration-4 run the first two SOC samples
are 75 and 50, and the monotonicity conclusion holds for them. -/
theorem soc_monotone_witness :
    ("Discharging" = "Charging" → (75 : ℚ) ≤ 50) ∧
      ("Discharging" = "Discharging" → (50 : ℚ) ≤ 75) :=
  soc_monotone liIon 3 2 "Discharging" 4 (by norm_num) (by norm_num)
    (by norm_num) 0 75 50
    (by
      rw [simulate_battery_soc_eq, simulate_loop_soc_get]
      · norm_num [socIter, socStep, max_def, if_neg mode_strings_differ]
      · norm_num)
    (by
      rw [simulate_battery_soc_eq, simulate_loop_soc_get]
      · norm_num [socIter, socStep, max_def, if_neg mode_strings_differ]
      · norm_num)

/-- C4: every sample's current equals
`(capacity × parallelCount / duration) × (+1 if Charging else −1)`; the value
does not depend on the sample index, so it is constant across the run. -/
theorem current_constant (b : ChemistryProfile) (sc pc : ℤ) (m : String)
    (d : ℤ) (hd : 1 ≤ d) (hsc : 1 ≤ sc) (hpc : 1 ≤ pc) :
    ∀ (i : ℕ) (x : ℚ),
      (simulate_battery b sc pc m d).current.get? i = some x →
      x = (b.capacity * (pc : ℚ) / (d : ℚ)) *
            (if m = "Charging" then 1 else -1) := by
  intro i x hx
  rw [simulate_battery_current_eq] at hx
  have hi : i < (List.range d.toNat).length := by
    by_contra hge
    rw [List.get?_eq_none.mpr] at hx
    · exact Option.noConfusion hx
    · have := (simulate_loop_lengths m d (b.capacity * (pc : ℚ))
        (b.voltage * (sc : ℚ)) (List.range d.toNat)
        (if m = "Charging" then 0 else 100)).2.1
      omega
  rw [simulate_loop_current_get m d (b.capacity * (pc : ℚ))
    (b.voltage * (sc : ℚ)) (List.range d.toNat)
    (if m = "Charging" then 0 else 100) i hi] at hx
  exact ((Option.some.injEq _ _).mp hx).symm

/-- C4 witness: in the Charging Lithium-Ion 3s2p duration-10 run, sample 0
records current 1/2 = 0.5 A, matching the closed form. -/
theorem current_constant_witness :
    (1 : ℚ) / 2 = (liIon.capacity * ((2 : ℤ) : ℚ) / ((10 : ℤ) : ℚ)) *
      (if "Charging" = "Charging" then 1 else -1) :=
  current_constant liIon 3 2 "Charging" 10 (by norm_num) (by norm_num)
    (by norm_num) 0 (1 / 2)
    (by
      rw [simulate_battery_current_eq, simulate_loop_current_get]
      · norm_num [liIon]
      · norm_num)

/-- C5: each sample's voltage is `packVoltage × socPercent / 100`, computed
from the same sample's recorded SOC, with
`packVoltage = nominalVoltage × seriesCount`. -/
theorem voltage_from_soc (b : ChemistryProfile) (sc pc : ℤ) (m : String)
    (d : ℤ) (hd : 1 ≤ d) (hsc : 1 ≤ sc) (hpc : 1 ≤ pc) :
    ∀ (i : ℕ) (x v : ℚ),
      (simulate_battery b sc pc m d).soc.get? i = some x →
      (simulate_battery b sc pc m d).voltage.get? i = some v →
      v = (b.voltage * (sc : ℚ)) * x / 100 := by
  intro i x v hx hv
  obtain ⟨hi, rfl⟩ := soc_get_eq b sc pc m d i x hx
  rw [simulate_battery_voltage_eq] at hv
  have hi' : i < (List.range d.toNat).length := by simpa using hi
  rw [simulate_loop_voltage_get m d (b.capacity * (pc : ℚ))
    (b.voltage * (sc : ℚ)) (List.range d.toNat)
    (if m = "Charging" then 0 else 100) i hi'] at hv
  obtain rfl := ((Option.some.injEq _ _).mp hv).symm
  rw [mul_div_assoc]

/-- C5 witness: in the Discharging duration-4 run, sample 0 has SOC 75 and
voltage 333/40 = 8.325 V = 11.1 × 75 / 100. -/
theorem voltage_from_soc_witness :
    (333 : ℚ) / 40 = (liIon.voltage * ((3 : ℤ) : ℚ)) * 75 / 100 :=
  voltage_from_soc liIon 3 2 "Discharging" 4 (by norm_num) (by norm_num)
    (by norm_num) 0 75 (333 / 40)
    (by
      rw [simulate_battery_soc_eq, simulate_loop_soc_get]
      · norm_num [socIter, socStep, max_def, if_neg mode_strings_differ]
      · norm_num)
    (by
      rw [simulate_battery_voltage_eq, simulate_loop_voltage_get]
      · norm_num [socIter, socStep, max_def, if_neg mode_strings_differ, liIon]
      · norm_num)

/-- C6: the SOC increment precedes the recording of each sample, so the first
sample's SOC is `min(100, 100/duration)` under Charging and
`max(0, 100 − 100/duration)` under Discharging; with duration 1 the single
sample's SOC is 100 (Charging) resp. 0 (Discharging). -/
theorem first_sample_reflects_increment (b : ChemistryProfile) (sc pc : ℤ)
    (d : ℤ) (hd : 1 ≤ d) (hsc : 1 ≤ sc) (hpc : 1 ≤ pc) :
    (simulate_battery b sc pc "Charging" d).soc.get? 0 =
      some (min 100 (100 / (d : ℚ))) ∧
    (simulate_battery b sc pc "Discharging" d).soc.get? 0 =
      some (max 0 (100 - 100 / (d : ℚ))) ∧
    (d = 1 →
      (simulate_battery b sc pc "Charging" d).soc = [100] ∧
      (simulate_battery b sc pc "Discharging" d).soc = [0]) := by
  have hlen : 0 < (List.range d.toNat).length := by
    rw [List.length_range]; omega
  refine ⟨?_, ?_, ?_⟩
  · rw [simulate_battery_soc_eq,
      simulate_loop_soc_get "Charging" d (b.capacity * (pc : ℚ))
        (b.voltage * (sc : ℚ)) (List.range d.toNat) _ 0 hlen]
    simp [socIter, socStep]
  · rw [simulate_battery_soc_eq,
      simulate_loop_soc_get "Discharging" d (b.capacity * (pc : ℚ))
        (b.voltage * (sc : ℚ)) (List.range d.toNat) _ 0 hlen]
    simp [socIter, socStep, if_neg mode_strings_differ]
  · rintro rfl
    constructor
    · rw [simulate_battery_soc_eq]
      norm_num [simulate_loop, socStep, List.range_succ, List.range_zero, min_def]
    · rw [simulate_battery_soc_eq]
      norm_num [simulate_loop, socStep, List.range_succ, List.range_zero, max_def,
        if_neg mode_strings_differ]

/-- C6 witness: at duration 1 the single Charging sample has SOC 100 and the
single Discharging sample has SOC 0. -/
theorem first_sample_reflects_increment_witness :
    (simulate_battery liIon 3 2 "Charging" 1).soc = [100] ∧
    (simulate_battery liIon 3 2 "Discharging" 1).soc = [0] :=
  (first_sample_reflects_increment liIon 3 2 1 (by norm_num) (by norm_num)
    (by norm_num)).2.2 rfl

/-- C7 counterexample: at `durationSeconds = 0` the simulator does not fail
with `InvalidParameters`: it returns a normal `SimulationResult` with empty
sample columns (and, as the claim also says, no division by zero occurs,
because the dividing loop body never executes). -/
theorem no_rejection_at_zero_duration :
    simulate_battery liIon 3 2 "Charging" 0 =
      { time := [], soc := [], current := [], voltage := [],
        total_voltage := 111 / 10, total_capacity := 5 } := by
  norm_num [simulate_battery, simulate_loop, liIon]

/-- C7 (amended): `simulate_battery` performs no parameter validation: for
every non-positive duration it returns normally with all four sample columns
empty (so no sample is emitted and no division by zero is executed), and
non-positive series/parallel counts are likewise accepted without failure. -/
theorem simulate_no_validation (b : ChemistryProfile) (sc pc : ℤ)
    (m : String) (d : ℤ) (hd : d ≤ 0) :
    simulate_battery b sc pc m d =
      { time := [], soc := [], current := [], voltage := [],
        total_voltage := b.voltage * (sc : ℚ),
        total_capacity := b.capacity * (pc : ℚ) } := by
  have ht : d.toNat = 0 := Int.toNat_of_nonpos hd
  simp [simulate_battery, ht, simulate_loop]

/-- C7 witness: the amended claim applied at duration 0. -/
theorem simulate_no_validation_witness :
    simulate_battery liIon 3 2 "Charging" 0 =
      { time := [], soc := [], current := [], voltage := [],
        total_voltage := liIon.voltage * ((3 : ℤ) : ℚ),
        total_capacity := liIon.capacity * ((2 : ℤ) : ℚ) } :=
  simulate_no_validation liIon 3 2 "Charging" 0 (by norm_num)

/-- C8: the concrete scenario Lithium-Ion (3.7 V, 2.5 Ah), 3 series cells,
2 parallel cells, Charging, duration 10: pack voltage 11.1 V, pack capacity
5.0 Ah, sample 0 has SOC 10 / current 0.5 A / voltage 1.11 V, and sample 9
has SOC 100 / current 0.5 A / voltage 11.1 V. -/
theorem concrete_charging_scenario :
    lookup "Lithium-Ion" = some liIon ∧
    (simulate_battery liIon 3 2 "Charging" 10).total_voltage = 111 / 10 ∧
    (simulate_battery liIon 3 2 "Charging" 10).total_capacity = 5 ∧
    (simulate_battery liIon 3 2 "Charging" 10).soc.get? 0 = some 10 ∧
    (simulate_battery liIon 3 2 "Charging" 10).current.get? 0 = some (1 / 2) ∧
    (simulate_battery liIon 3 2 "Charging" 10).voltage.get? 0 =
      some (111 / 100) ∧
    (simulate_battery liIon 3 2 "Charging" 10).soc.get? 9 = some 100 ∧
    (simulate_battery liIon 3 2 "Charging" 10).current.get? 9 = some (1 / 2) ∧
    (simulate_battery liIon 3 2 "Charging" 10).voltage.get? 9 =
      some (111 / 10) := by
  have h0 : (0 : ℕ) < (List.range (10 : ℤ).toNat).length := by norm_num
  have h9 : (9 : ℕ) < (List.range (10 : ℤ).toNat).length := by norm_num
  refine ⟨rfl, by norm_num [simulate_battery, liIon],
    by norm_num [simulate_battery, liIon], ?_, ?_, ?_, ?_, ?_, ?_⟩
  · rw [simulate_battery_soc_eq, simulate_loop_soc_get _ _ _ _ _ _ 0 h0]
    norm_num [socIter, socStep, min_def]
  · rw [simulate_battery_current_eq, simulate_loop_current_get _ _ _ _ _ _ 0 h0]
    norm_num [liIon]
  · rw [simulate_battery_voltage_eq, simulate_loop_voltage_get _ _ _ _ _ _ 0 h0]
    norm_num [socIter, socStep, min_def, liIon]
  · rw [simulate_battery_soc_eq, simulate_loop_soc_get _ _ _ _ _ _ 9 h9]
    norm_num [socIter, socStep, min_def]
  · rw [simulate_battery_current_eq, simulate_loop_current_get _ _ _ _ _ _ 9 h9]
    norm_num [liIon]
  · rw [simulate_battery_voltage_eq, simulate_loop_voltage_get _ _ _ _ _ _ 9 h9]
    norm_num [socIter, socStep, min_def, liIon]

/-- C9: catalog lookup fails exactly on unregistered names, and every
registered name maps to its stored chemistry profile. -/
theorem lookup_spec (name : String) :
    (lookup name = none ↔ name ∉ battery_types.map Prod.fst) ∧
    ∀ p : ChemistryProfile, (name, p) ∈ battery_types → lookup name = some p := by
  constructor
  · rw [lookup, Option.map_eq_none', List.find?_eq_none]
    simp only [List.mem_map, not_exists, not_and, decide_eq_true_eq, Prod.exists,
      Prod.forall]
  · intro p hp
    simp only [battery_types, List.mem_cons, List.not_mem_nil, or_false,
      Prod.mk.injEq] at hp
    rcases hp with ⟨h1, h2⟩ | ⟨h1, h2⟩ | ⟨h1, h2⟩ | ⟨h1, h2⟩ | ⟨h1, h2⟩ |
      ⟨h1, h2⟩ | ⟨h1, h2⟩ | ⟨h1, h2⟩ <;> subst h1 <;> subst h2 <;> rfl

/-- C9 witness: the unregistered name Unobtainium fails, and the registered
name Lithium-Ion returns its profile. -/
theorem lookup_spec_witness :
    lookup "Unobtainium" = none ∧ lookup "Lithium-Ion" = some liIon :=
  ⟨(lookup_spec "Unobtainium").1.mpr (by decide),
   (lookup_spec "Lithium-Ion").2 liIon (List.mem_cons_self _ _)⟩

theorem simulate_loop_mode_irrelevant (m : String) (hm : m ≠ "Charging")
    (d : ℤ) (tc tv : ℚ) :
    ∀ (ts : List ℕ) (s : ℚ),
      simulate_loop m d tc tv ts s = simulate_loop "Discharging" d tc tv ts s := by
  intro ts
  induction ts with
  | nil => intro s; rfl
  | cons t ts ih =>
    intro s
    simp only [simulate_loop, socStep, if_neg hm, if_neg mode_strings_differ, ih]

/-- C10: the simulator never validates the mode string: any mode other than
exactly "Charging" produces precisely the Discharging-mode result for the
same chemistry, pack and duration, with no error. -/
theorem unvalidated_mode_falls_back_to_discharging (b : ChemistryProfile)
    (sc pc : ℤ) (m : String) (d : ℤ) (hm : m ≠ "Charging") :
    simulate_battery b sc pc m d = simulate_battery b sc pc "Discharging" d := by
  unfold simulate_battery
  simp only [if_neg hm, if_neg mode_strings_differ,
    simulate_loop_mode_irrelevant m hm]

/-- C10 witness: the lower-case mode string "charging" is treated as
Discharging. -/
theorem unvalidated_mode_witness :
    simulate_battery liIon 3 2 "charging" 5 =
      simulate_battery liIon 3 2 "Discharging" 5 :=
  unvalidated_mode_falls_back_to_discharging liIon 3 2 "charging" 5 (by decide)
